import Mathlib

/-!
Verification development for the identification → validation → fallback →
synthesis pipeline of an FTC control-tuning toolkit.  Numeric quantities of
the Python source (floats) are embedded as rationals; nonlinear solver calls
(`scipy.optimize.curve_fit`) and transcendental preludes are abstracted as
explicit function arguments, while every surrounding computation (guesses,
bounds, tables, thresholds, score arithmetic) is translated directly from the
source files `identify_params.py`, `validate_model.py` and
`calculate_gains.py`.
-/

namespace FtcControl

/-- Parameter names appearing in the model library of `identify_params.py`
(`K`, `tau`, `kg`, `omega_n`, `zeta`, `J`, `b`, `friction`, `J_base`,
`J_slope`). -/
inductive ParamName where
  | K
  | tau
  | kg
  | omega_n
  | zeta
  | J
  | b
  | friction
  | J_base
  | J_slope
deriving DecidableEq, BEq, Repr

namespace IdentifyParams

/-- The `ModelType` enum of `identify_params.py` (7 model structures). -/
inductive ModelType where
  | first_order
  | first_order_gravity
  | second_order
  | second_order_gravity
  | angle_dependent
  | friction
  | variable_inertia
deriving DecidableEq, BEq, Repr

/-- The `.value` strings of the `ModelType` enum: hyphenated names
(`FIRST_ORDER = "first-order"`, ..., `FRICTION = "friction"`). -/
def ModelType.value : ModelType → String
  | .first_order => "first-order"
  | .first_order_gravity => "first-order-gravity"
  | .second_order => "second-order"
  | .second_order_gravity => "second-order-gravity"
  | .angle_dependent => "angle-dependent"
  | .friction => "friction"
  | .variable_inertia => "variable-inertia"

/-- The `param_names` list chosen per model type inside `identify_model`
(`identify_params.py`, lines 935-961). -/
def param_names : ModelType → List ParamName
  | .first_order => [.K, .tau]
  | .first_order_gravity => [.K, .tau, .kg]
  | .second_order => [.K, .omega_n, .zeta]
  | .second_order_gravity => [.K, .omega_n, .zeta, .kg]
  | .angle_dependent => [.K, .tau, .kg]
  | .friction => [.J, .b, .friction, .kg]
  | .variable_inertia => [.J_base, .J_slope, .b, .kg]

/-- Number of fitted parameters of a model type. -/
def param_count (mt : ModelType) : Nat := (param_names mt).length

/-- The `fallback_map` dictionary inside `try_with_fallback`
(`identify_params.py`, lines 1139-1147). -/
def fallback_map : ModelType → Option ModelType
  | .second_order_gravity => some .first_order_gravity
  | .second_order => some .first_order
  | .angle_dependent => some .first_order_gravity
  | .friction => some .first_order_gravity
  | .variable_inertia => some .first_order_gravity
  | .first_order_gravity => some .first_order
  | .first_order => none

/-- Rank used to bound the recursion depth of `try_with_fallback`: each
`fallback_map` transition lands on a model type of rank exactly one less. -/
def model_rank : ModelType → Nat
  | .first_order => 0
  | .first_order_gravity => 1
  | .second_order => 1
  | .second_order_gravity => 2
  | .angle_dependent => 2
  | .friction => 2
  | .variable_inertia => 2

/-- Fuel-indexed unfolding of the list of model types attempted by the
recursion of `try_with_fallback` when every attempt is rejected. -/
def chain_aux : Nat → ModelType → List ModelType
  | 0, mt => [mt]
  | Nat.succ n, mt =>
    mt :: (match fallback_map mt with
      | none => []
      | some fb => chain_aux n fb)

/-- The full sequence of model types attempted in one run of
`try_with_fallback` when no attempt is accepted.  `model_rank mt + 1` is
enough fuel, as certified by `attempt_chain_unfold` below. -/
def attempt_chain (mt : ModelType) : List ModelType :=
  chain_aux (model_rank mt + 1) mt

/-- Fuel-indexed embedding of the recursion of `try_with_fallback`
(`identify_params.py`, lines 1108-1158).  `accept mt` abstracts "the
`identify_model` call for `mt` did not raise and `validate_model(model)`
returned True". -/
def twf_aux (accept : ModelType → Bool) : Nat → ModelType → Option ModelType
  | 0, mt => if accept mt then some mt else none
  | Nat.succ n, mt =>
    if accept mt then some mt
    else match fallback_map mt with
      | none => none
      | some fb => twf_aux accept n fb

/-- `try_with_fallback` of `identify_params.py`: attempt the current model
type; on failure move to the `fallback_map` entry and recurse; return `none`
once `first_order` itself is rejected.  `model_rank mt + 1` fuel is enough,
as certified by `try_with_fallback_unfold` below. -/
def try_with_fallback (accept : ModelType → Bool) (mt : ModelType) :
    Option ModelType :=
  twf_aux accept (model_rank mt + 1) mt

/-- Mean of a list of rationals (`np.mean`); `0` on the empty list (the
source never evaluates it there along the modelled paths). -/
def list_mean (xs : List ℚ) : ℚ := xs.sum / (xs.length : ℚ)

/-- The steady-state gravity-feedforward estimate of
`identify_first_order_gravity` (`identify_params.py`, lines 277-284):
`kg = np.mean(power[int(len(power) * 0.8):])` when `len(power) > 20`,
else `kg = 0.0`.  `int(n * 0.8)` equals `4 * n / 5` in natural division
(the float product of a 64-bit `n` with the double nearest 0.8 always
rounds to a value with the same floor). -/
def identify_first_order_gravity_kg (power : List ℚ) : ℚ :=
  if 20 < power.length then
    list_mean (power.drop (4 * power.length / 5))
  else 0

/-- The identical steady-state `kg` estimate of
`identify_second_order_gravity` (`identify_params.py`, lines 405-411). -/
def identify_second_order_gravity_kg (power : List ℚ) : ℚ :=
  if 20 < power.length then
    list_mean (power.drop (4 * power.length / 5))
  else 0

/-- Modelled from the spec: "estimates constant feedforward `kg` as the mean
applied power over the final 20% of the response window (steady state)" —
an unconditional mean over the last fifth of the post-step power samples,
with no minimum-length guard. -/
def spec_steady_state_kg (power : List ℚ) : ℚ :=
  list_mean (power.drop (4 * power.length / 5))

/-- The parameter bounds of `identify_first_order`
(`identify_params.py`, line 228):
`bounds = ([K_guess * 0.5, 0.01], [K_guess * 2.0, 10.0])` as
(lower `K`, lower `tau`), (upper `K`, upper `tau`). -/
def first_order_bounds (K_guess : ℚ) : (ℚ × ℚ) × (ℚ × ℚ) :=
  ((K_guess * 0.5, 0.01), (K_guess * 2.0, 10.0))

/-- `scipy.optimize.least_squares` (reached through `curve_fit`) requires
each lower bound to be strictly less than the matching upper bound and
raises otherwise; this is the validity predicate it enforces. -/
def bounds_valid (b : (ℚ × ℚ) × (ℚ × ℚ)) : Bool :=
  decide (b.1.1 < b.2.1) && decide (b.1.2 < b.2.2)

/-- The guess/bounds prelude of `identify_first_order`
(`identify_params.py`, lines 200-256) over the post-step position series.
`fit K_guess tau_guess` abstracts the bounded `curve_fit` call (which scipy
only reaches when the bounds are valid); the surrounding computation of
`pos_initial`, `final_value`, `K_guess` and the bound check are the code's.
Any exception is re-raised as a fitting error. -/
def identify_first_order (pos : List ℚ)
    (fit : ℚ → ℚ → Except String (ℚ × ℚ)) : Except String (ℚ × ℚ) :=
  let pos_initial := pos.headD 0
  let final_value := pos.getLastD 0
  let K_guess := final_value - pos_initial
  let tau_guess : ℚ := 1
  if bounds_valid (first_order_bounds K_guess) then fit K_guess tau_guess
  else Except.error ("First-order fitting failed: invalid bounds")

/-- `calculate_confidence_intervals` (`identify_params.py`, lines 738-765):
per-parameter interval `value ± z * stderr`, where `stderr` stands for
`sqrt(diag(cov))` (the square root is irrational in general, so the standard
errors enter as a list) and `z = stats.norm.ppf((1 + confidence) / 2)`
(≈ 1.96 at the default 95%). -/
def calculate_confidence_intervals :
    List ℚ → List ℚ → ℚ → List (ℚ × ℚ)
  | p :: ps, e :: es, z =>
    (p - z * e, p + z * e) :: calculate_confidence_intervals ps es z
  | _, _, _ => []

/-- The `kg` confidence heuristic of `identify_model`
(`identify_params.py`, lines 980-984):
`confidence_intervals["kg"] = (kg_val * 0.9, kg_val * 1.1)`. -/
def kg_confidence_interval (kg : ℚ) : ℚ × ℚ := (kg * 0.9, kg * 1.1)

/-- Clamp to [0, 1]: `max(0.0, min(1.0, x))` as used throughout
`assess_confidence`. -/
def clamp01 (x : ℚ) : ℚ := max 0 (min 1 x)

/-- Whether `"tau" in params and params["tau"] <= 0`
(`assess_confidence`, line 805). -/
def tau_violated (params : List (ParamName × ℚ)) : Bool :=
  match params.lookup ParamName.tau with
  | some v => decide (v ≤ 0)
  | none => false

/-- Whether `"omega_n" in params and params["omega_n"] <= 0`
(`assess_confidence`, line 807). -/
def omega_n_violated (params : List (ParamName × ℚ)) : Bool :=
  match params.lookup ParamName.omega_n with
  | some v => decide (v ≤ 0)
  | none => false

/-- Whether `"zeta" in params and (params["zeta"] < 0 or params["zeta"] > 2)`
(`assess_confidence`, line 809). -/
def zeta_violated (params : List (ParamName × ℚ)) : Bool :=
  match params.lookup ParamName.zeta with
  | some v => decide (v < 0) || decide (2 < v)
  | none => false

/-- The relative confidence-interval widths of `assess_confidence`
(`identify_params.py`, lines 788-795): parameter values are zipped
positionally with their intervals, and each parameter with
`abs(param_val) > 1e-6` contributes `(upper - lower) / (2 * abs(param_val))`. -/
def ci_width_list (params : List (ParamName × ℚ)) (cis : List (ℚ × ℚ)) :
    List ℚ :=
  ((params.map Prod.snd).zip cis).filterMap
    (fun x => if 1 / 1000000 < |x.1| then
        some ((x.2.2 - x.2.1) / (2 * |x.1|))
      else none)

/-- `assess_confidence` (`identify_params.py`, lines 768-819): the overall
0-1 confidence score of a fit, `0.5 * r_squared_score + 0.3 * ci_score +
0.2 * physics_score`, where the R² score is `(r² - 0.7) / 0.25` clamped,
the CI score is `1 - mean(ci_widths)` clamped (0.5 when `ci_widths` is
empty), and the physics score starts at 1.0 and is multiplied by 0.5 for
each violated parameter bound. -/
def assess_confidence (r_squared : ℚ) (params : List (ParamName × ℚ))
    (cis : List (ℚ × ℚ)) : ℚ :=
  0.5 * clamp01 ((r_squared - 0.7) / 0.25) +
  0.3 * (if ci_width_list params cis = [] then 0.5
    else clamp01 (1 - list_mean (ci_width_list params cis))) +
  0.2 * ((if tau_violated params then (0.5 : ℚ) else 1) *
    (if omega_n_violated params then (0.5 : ℚ) else 1) *
    (if zeta_violated params then (0.5 : ℚ) else 1))

/-- Modelled from the spec: the number of violated physics bounds among
`tau ≤ 0`, `omega_n ≤ 0`, `zeta ∉ [0,2]` — the spec describes the physics
multiplier as starting at 1 and halving once per violated bound. -/
def spec_violation_count (params : List (ParamName × ℚ)) : Nat :=
  (if tau_violated params then 1 else 0) +
  (if omega_n_violated params then 1 else 0) +
  (if zeta_violated params then 1 else 0)

end IdentifyParams

namespace ValidateModel

/-- `R_SQUARED_THRESHOLD = 0.85` (`validate_model.py`, line 47). -/
def R_SQUARED_THRESHOLD : ℚ := 0.85

/-- `CONFIDENCE_THRESHOLD = 0.8` (`validate_model.py`, line 48). -/
def CONFIDENCE_THRESHOLD : ℚ := 0.8

/-- `MIN_DATA_POINTS = 20` (`validate_model.py`, line 49). -/
def MIN_DATA_POINTS : Nat := 20

/-- `MAX_NORMALIZED_RMSE = 0.15` (`validate_model.py`, line 50). -/
def MAX_NORMALIZED_RMSE : ℚ := 0.15

/-- The `MODEL_SIMPLIFICATION` dictionary (`validate_model.py`,
lines 721-729); values are the suggested simpler model type, `none` for the
terminal `first_order` entry. -/
def MODEL_SIMPLIFICATION : List (String × Option String) :=
  [("variable_inertia", some ("friction")),
   ("friction", some ("second_order_gravity")),
   ("second_order_gravity", some ("first_order_gravity")),
   ("second_order", some ("first_order")),
   ("angle_dependent_gravity", some ("first_order_gravity")),
   ("first_order_gravity", some ("first_order")),
   ("first_order", none)]

/-- `MODEL_SIMPLIFICATION.get(s)`: `none` when the key is absent,
`some v` (with `v` the stored optional value) when present. -/
def ms_lookup (s : String) : Option (Option String) :=
  MODEL_SIMPLIFICATION.lookup s

/-- `MODEL_SIMPLIFICATION.get(s, dflt)`: the stored value when the key is
present (which may itself be the dictionary's `None`), else the default. -/
def ms_get (s : String) (dflt : Option String) : Option String :=
  match ms_lookup s with
  | some v => v
  | none => dflt

/-- Underscore-named model-type strings mapped to the identification-side
model structures they denote, used to read parameter counts off the
`param_names` table for entries of `MODEL_SIMPLIFICATION`
(`angle_dependent_gravity` is the validator's name for the identification
stage's angle-dependent structure). -/
def parse_model_type : String → Option IdentifyParams.ModelType
  | "first_order" => some .first_order
  | "first_order_gravity" => some .first_order_gravity
  | "second_order" => some .second_order
  | "second_order_gravity" => some .second_order_gravity
  | "angle_dependent_gravity" => some .angle_dependent
  | "friction" => some .friction
  | "variable_inertia" => some .variable_inertia
  | _ => none

/-- Parameter count of a model named by an underscore string (0 for names
outside the library). -/
def ms_param_count (s : String) : Nat :=
  match parse_model_type s with
  | some mt => IdentifyParams.param_count mt
  | none => 0

/-- Tags naming the seven simulation routines dispatched by
`simulate_model` (`validate_model.py`, lines 333-341). -/
inductive SimulatorTag where
  | first_order
  | first_order_gravity
  | second_order
  | second_order_gravity
  | angle_dependent_gravity
  | friction_model
  | variable_inertia
deriving DecidableEq, BEq, Repr

/-- The `simulators` dictionary of `simulate_model` (`validate_model.py`,
lines 333-341): underscore-named keys mapped to simulation routines. -/
def simulators : List (String × SimulatorTag) :=
  [("first_order", .first_order),
   ("first_order_gravity", .first_order_gravity),
   ("second_order", .second_order),
   ("second_order_gravity", .second_order_gravity),
   ("angle_dependent_gravity", .angle_dependent_gravity),
   ("friction", .friction_model),
   ("variable_inertia", .variable_inertia)]

/-- `simulators.get(model_type)`: `none` triggers the
`Unknown model type` ValueError in `simulate_model`. -/
def simulator_for (model_type : String) : Option SimulatorTag :=
  simulators.lookup model_type

/-- The slice of a `ValidationReport` needed to track the outcome of the
simulation-failure branch of `validate_model`. -/
structure ReportCore where
  validation_passed : Bool
  fallback_suggestion : Option String
deriving DecidableEq, Repr

/-- The report returned by the `except` branch of `validate_model`
(`validate_model.py`, lines 807-823) when `simulate_model` raises:
`validation_passed=False` and
`fallback_suggestion=MODEL_SIMPLIFICATION.get(model_type, 'first_order')`. -/
def sim_fail_report (model_type : String) : ReportCore :=
  { validation_passed := false,
    fallback_suggestion := ms_get model_type (some ("first_order")) }

/-- The dispatch skeleton of `validate_model`: `simulate_model` raises
`Unknown model type` exactly when `simulators.get` misses, in which case the
simulation-failure report is returned; otherwise validation continues with
the resolved simulator (`on_ok` abstracts the rest of the function). -/
def validate_model_sim (model_type : String)
    (on_ok : SimulatorTag → ReportCore) : ReportCore :=
  match simulator_for model_type with
  | none => sim_fail_report model_type
  | some tag => on_ok tag

/-- The overall acceptance conjunction of `validate_model`
(`validate_model.py`, lines 876-883), over the computed metrics
(`R_squared`, `normalized_RMSE`, `num_samples`), the physics-check outcome,
the residual-analysis bias flag and the cross-validation overfitting flag. -/
def validation_passed_flag (r_squared normalized_rmse : ℚ)
    (num_samples : Nat) (physics_all_passed systematic_bias
    overfitting_detected : Bool) : Bool :=
  decide (R_SQUARED_THRESHOLD ≤ r_squared) &&
  decide (normalized_rmse ≤ MAX_NORMALIZED_RMSE) &&
  physics_all_passed &&
  !systematic_bias &&
  !overfitting_detected &&
  decide (MIN_DATA_POINTS ≤ num_samples)

end ValidateModel

namespace CalculateGains

/-- The gain set and predicted-performance fields produced by the
closed-form synthesis methods of `calculate_gains.py` (values before the
6-decimal display rounding applied at serialization). -/
structure GainResult where
  kP : ℚ
  kD : ℚ
  kG : ℚ
  rise_time_sec : ℚ
  overshoot_percent : ℚ
  settling_time_sec : ℚ
deriving DecidableEq, Repr

/-- `calculate_ziegler_nichols_gains` (`calculate_gains.py`, lines 186-229):
`kP = 0.5 / (K * tau)`, `kD = 0.5 * tau`, `kG = kg`, with predicted rise
time `2.2 * tau`, overshoot `10.0` and settling time `8.0 * tau`. -/
def calculate_ziegler_nichols_gains (K tau kg : ℚ) : GainResult :=
  { kP := 0.5 / (K * tau),
    kD := 0.5 * tau,
    kG := kg,
    rise_time_sec := 2.2 * tau,
    overshoot_percent := 10.0,
    settling_time_sec := 8.0 * tau }

/-- `calculate_lambda_tuning_gains` (`calculate_gains.py`, lines 232-273):
`lambda_cl = lambda_factor * tau`, `kP = tau / (K * lambda_cl)`, `kD = 0`,
`kG = kg`, predicted rise time `2.2 * lambda_cl`, overshoot `0.0`,
settling time `4 * lambda_cl`. -/
def calculate_lambda_tuning_gains (K tau kg lambda_factor : ℚ) :
    GainResult :=
  let lambda_cl := lambda_factor * tau
  { kP := tau / (K * lambda_cl),
    kD := 0,
    kG := kg,
    rise_time_sec := 2.2 * lambda_cl,
    overshoot_percent := 0.0,
    settling_time_sec := 4 * lambda_cl }

/-- The first-order branch of `calculate_pole_placement_gains`
(`calculate_gains.py`, lines 110-115): given the desired damping ratio and
natural frequency (computed upstream by a transcendental prelude),
`kP = max(0.0001, (2*zeta_d*omega_d*tau - 1)/K)` and
`kD = max(0.0, tau*omega_d**2/K)`. -/
def pole_placement_first_order_gains (K tau zeta_d omega_d : ℚ) : ℚ × ℚ :=
  (max 0.0001 ((2 * zeta_d * omega_d * tau - 1) / K),
   max 0 ((tau * omega_d ^ 2) / K))

/-- The second-order branch of `calculate_pole_placement_gains`
(`calculate_gains.py`, lines 141-142):
`kP = max(0.0001, (omega_d**2 - omega_n**2)/K)` and
`kD = max(0.0, (2*zeta_d*omega_d - 2*zeta*omega_n)/K)`. -/
def pole_placement_second_order_gains (K omega_n zeta zeta_d omega_d : ℚ) :
    ℚ × ℚ :=
  (max 0.0001 ((omega_d ^ 2 - omega_n ^ 2) / K),
   max 0 ((2 * zeta_d * omega_d - 2 * zeta * omega_n) / K))

/-- The fallback branch of `calculate_pole_placement_gains` for other model
types (`calculate_gains.py`, lines 154-158): fixed `zeta_d = 0.7`,
`omega_d = 1.8 / rise_time`, then the first-order gain formulas with the
same clamps. -/
def pole_placement_default_gains (K tau rise_time : ℚ) : ℚ × ℚ :=
  let zeta_d : ℚ := 0.7
  let omega_d := 1.8 / rise_time
  (max 0.0001 ((2 * zeta_d * omega_d * tau - 1) / K),
   max 0 ((tau * omega_d ^ 2) / K))

end CalculateGains

open IdentifyParams ValidateModel CalculateGains

/-- The fuel `model_rank mt + 1` given to `chain_aux` reproduces the
unbounded recursion of `try_with_fallback`: the attempt list satisfies the
recursion equation of the source. -/
theorem attempt_chain_unfold (mt : ModelType) :
    attempt_chain mt = mt :: (match fallback_map mt with
      | none => []
      | some fb => attempt_chain fb) := by
  cases mt <;> rfl

/-- The fuel given to `twf_aux` reproduces the unbounded recursion of
`try_with_fallback` in `identify_params.py`. -/
theorem try_with_fallback_unfold (accept : ModelType → Bool)
    (mt : ModelType) :
    try_with_fallback accept mt =
      if accept mt then some mt
      else match fallback_map mt with
        | none => none
        | some fb => try_with_fallback accept fb := by
  cases mt <;> rfl

/-- The fallback recursion returns the first attempted model type the
acceptance predicate approves, at any fuel. -/
theorem twf_aux_eq_find (accept : ModelType → Bool) :
    ∀ (n : Nat) (mt : ModelType),
      twf_aux accept n mt = (chain_aux n mt).find? accept := by
  intro n
  induction n with
  | zero =>
    intro mt
    cases h : accept mt <;>
      simp [twf_aux, chain_aux, List.find?, h]
  | succ n ih =>
    intro mt
    cases h : accept mt
    · cases hf : fallback_map mt <;>
        simp [twf_aux, chain_aux, List.find?, h, hf, ih]
    · simp [twf_aux, chain_aux, List.find?, h]

/-- Both components of `clamp01` lie between the clamp bounds. -/
theorem clamp01_nonneg (x : ℚ) : 0 ≤ clamp01 x := le_max_left 0 _

/-- `clamp01` never exceeds 1. -/
theorem clamp01_le_one (x : ℚ) : clamp01 x ≤ 1 :=
  max_le (by norm_num) (min_le_left _ _)

/-- C1 counterexample: the identification fallback map sends
`variable_inertia` to `first_order_gravity`, not to `friction` as the
claimed table states, and the validator's `MODEL_SIMPLIFICATION` sends
`friction` to `second_order_gravity`, not to `first_order_gravity`. -/
theorem C1_fallback_table_counterexample :
    fallback_map ModelType.variable_inertia =
      some ModelType.first_order_gravity ∧
    ModelType.first_order_gravity ≠ ModelType.friction ∧
    ms_lookup ("friction") = some (some ("second_order_gravity")) ∧
    ("second_order_gravity" : String) ≠ "first_order_gravity" := by
  refine ⟨rfl, by decide, by decide, by decide⟩

/-- C1 (amended): the identification fallback map is second_order_gravity →
first_order_gravity, second_order → first_order, angle_dependent →
first_order_gravity, friction → first_order_gravity, variable_inertia →
first_order_gravity, first_order_gravity → first_order, first_order
terminal; the validator's simplification table is variable_inertia →
friction, friction → second_order_gravity, second_order_gravity →
first_order_gravity, second_order → first_order, angle_dependent_gravity →
first_order_gravity, first_order_gravity → first_order, first_order
terminal; the two tables disagree (at variable_inertia and friction), so
identification and validation do not share one table. -/
theorem C1_fallback_tables :
    (fallback_map ModelType.second_order_gravity =
        some ModelType.first_order_gravity ∧
      fallback_map ModelType.second_order = some ModelType.first_order ∧
      fallback_map ModelType.angle_dependent =
        some ModelType.first_order_gravity ∧
      fallback_map ModelType.friction =
        some ModelType.first_order_gravity ∧
      fallback_map ModelType.variable_inertia =
        some ModelType.first_order_gravity ∧
      fallback_map ModelType.first_order_gravity =
        some ModelType.first_order ∧
      fallback_map ModelType.first_order = none) ∧
    (ms_lookup ("variable_inertia") = some (some ("friction")) ∧
      ms_lookup ("friction") = some (some ("second_order_gravity")) ∧
      ms_lookup ("second_order_gravity") =
        some (some ("first_order_gravity")) ∧
      ms_lookup ("second_order") = some (some ("first_order")) ∧
      ms_lookup ("angle_dependent_gravity") =
        some (some ("first_order_gravity")) ∧
      ms_lookup ("first_order_gravity") = some (some ("first_order")) ∧
      ms_lookup ("first_order") = some none) ∧
    (fallback_map ModelType.variable_inertia ≠ some ModelType.friction ∧
      ms_lookup ("friction") ≠ some (some ("first_order_gravity"))) := by
  decide

/-- C2 counterexample: the fallback transition from `angle_dependent` goes
to `first_order_gravity`, yet both carry 3 parameters, so the transition
does not strictly lower the parameter count. -/
theorem C2_strict_decrease_counterexample :
    fallback_map ModelType.angle_dependent =
      some ModelType.first_order_gravity ∧
    param_count ModelType.angle_dependent = 3 ∧
    param_count ModelType.first_order_gravity = 3 ∧
    ¬ param_count ModelType.first_order_gravity <
        param_count ModelType.angle_dependent := by
  decide

/-- C2 (amended): every fallback transition moves to a model type whose
parameter count does not exceed the current one (equality occurs at
angle_dependent → first_order_gravity in the identification map, and at
variable_inertia → friction, friction → second_order_gravity and
angle_dependent_gravity → first_order_gravity in the validator table); the
identification fallback run never revisits a model type, attempts at most 3
model types, always ends its attempt list at first_order, and returns the
first accepted model type of that list (so it terminates, stopping early on
acceptance). -/
theorem C2_fallback_monotone_terminates :
    (∀ mt m, fallback_map mt = some m →
      param_count m ≤ param_count mt) ∧
    (∀ p q, (p, some q) ∈ MODEL_SIMPLIFICATION →
      ms_param_count q ≤ ms_param_count p) ∧
    (∀ mt, (attempt_chain mt).Nodup) ∧
    (∀ mt, (attempt_chain mt).getLast? = some ModelType.first_order) ∧
    (∀ mt, (attempt_chain mt).length ≤ 3) ∧
    (∀ accept mt, try_with_fallback accept mt =
      (attempt_chain mt).find? accept) := by
  refine ⟨?_, ?_, ?_, ?_, ?_, ?_⟩
  · intro mt m h
    cases mt <;>
      simp only [fallback_map, Option.some.injEq, reduceCtorEq] at h <;>
      subst h <;> decide
  · intro p q h
    simp only [List.mem_cons, MODEL_SIMPLIFICATION, List.not_mem_nil,
      or_false, Prod.mk.injEq, Option.some.injEq, reduceCtorEq,
      and_false, false_or] at h
    rcases h with ⟨rfl, rfl⟩ | ⟨rfl, rfl⟩ | ⟨rfl, rfl⟩ | ⟨rfl, rfl⟩ |
      ⟨rfl, rfl⟩ | ⟨rfl, rfl⟩ <;> decide
  · intro mt; cases mt <;> decide
  · intro mt; cases mt <;> decide
  · intro mt; cases mt <;> decide
  · intro accept mt
    exact twf_aux_eq_find accept (model_rank mt + 1) mt

/-- C2 witness: concrete instances of the amended statement — the
second_order_gravity transition, the friction entry of the validator table,
and a fully rejected run from variable_inertia. -/
theorem C2_fallback_witness :
    (fallback_map ModelType.second_order_gravity =
        some ModelType.first_order_gravity ∧
      param_count ModelType.first_order_gravity ≤
        param_count ModelType.second_order_gravity) ∧
    (("friction", some ("second_order_gravity")) ∈ MODEL_SIMPLIFICATION ∧
      ms_param_count ("second_order_gravity") ≤ ms_param_count ("friction")) ∧
    try_with_fallback (fun _ => false) ModelType.variable_inertia =
      (attempt_chain ModelType.variable_inertia).find? (fun _ => false) :=
  ⟨⟨rfl, C2_fallback_monotone_terminates.1 _ _ rfl⟩,
   ⟨by decide, C2_fallback_monotone_terminates.2.1 _ _ (by decide)⟩,
   C2_fallback_monotone_terminates.2.2.2.2.2 _ _⟩

/-- C3: `validation_passed` is true exactly when R² ≥ 0.85, normalized
RMSE ≤ 0.15, all physics checks passed, no systematic bias, no detected
overfitting, and at least 20 usable samples. -/
theorem C3_validation_passed_iff (r_squared normalized_rmse : ℚ)
    (num_samples : Nat) (physics_all_passed systematic_bias
    overfitting_detected : Bool) :
    validation_passed_flag r_squared normalized_rmse num_samples
        physics_all_passed systematic_bias overfitting_detected = true ↔
      ((0.85 : ℚ) ≤ r_squared ∧ normalized_rmse ≤ (0.15 : ℚ) ∧
        physics_all_passed = true ∧ systematic_bias = false ∧
        overfitting_detected = false ∧ 20 ≤ num_samples) := by
  simp [validation_passed_flag, R_SQUARED_THRESHOLD, MAX_NORMALIZED_RMSE,
    MIN_DATA_POINTS, Bool.and_eq_true, decide_eq_true_eq,
    Bool.not_eq_true', and_assoc]

/-- C4 counterexample: for a model with `K = -1`, `tau = 1`, the
Ziegler-Nichols synthesis yields `kP = -0.5 < 0`, violating the claimed
`kP ≥ 0` invariant. -/
theorem C4_nonneg_gains_counterexample :
    (calculate_ziegler_nichols_gains (-1) 1 0).kP = -(1/2) ∧
    ¬ (0 : ℚ) ≤ (calculate_ziegler_nichols_gains (-1) 1 0).kP := by
  constructor
  · norm_num [calculate_ziegler_nichols_gains]
  · norm_num [calculate_ziegler_nichols_gains]

/-- C4 (amended): pole placement clamps its gains, so every branch yields
`kP ≥ 0` and `kD ≥ 0` unconditionally; Ziegler-Nichols and lambda tuning do
not clamp, but yield `kP ≥ 0` and `kD ≥ 0` whenever the model parameters
are physically valid (`K > 0`, `tau > 0`, and a positive lambda factor) —
with negative `K` or `tau` they can return negative gains. -/
theorem C4_nonneg_gains :
    (∀ K tau zeta_d omega_d : ℚ,
      0 ≤ (pole_placement_first_order_gains K tau zeta_d omega_d).1 ∧
      0 ≤ (pole_placement_first_order_gains K tau zeta_d omega_d).2) ∧
    (∀ K omega_n zeta zeta_d omega_d : ℚ,
      0 ≤ (pole_placement_second_order_gains K omega_n zeta
        zeta_d omega_d).1 ∧
      0 ≤ (pole_placement_second_order_gains K omega_n zeta
        zeta_d omega_d).2) ∧
    (∀ K tau rise_time : ℚ,
      0 ≤ (pole_placement_default_gains K tau rise_time).1 ∧
      0 ≤ (pole_placement_default_gains K tau rise_time).2) ∧
    (∀ K tau kg : ℚ, 0 < K → 0 < tau →
      0 ≤ (calculate_ziegler_nichols_gains K tau kg).kP ∧
      0 ≤ (calculate_ziegler_nichols_gains K tau kg).kD) ∧
    (∀ K tau kg f : ℚ, 0 < K → 0 < tau → 0 < f →
      0 ≤ (calculate_lambda_tuning_gains K tau kg f).kP ∧
      (calculate_lambda_tuning_gains K tau kg f).kD = 0) := by
  refine ⟨?_, ?_, ?_, ?_, ?_⟩
  · intro K tau zeta_d omega_d
    simp only [pole_placement_first_order_gains]
    exact ⟨le_trans (by norm_num) (le_max_left _ _), le_max_left _ _⟩
  · intro K omega_n zeta zeta_d omega_d
    simp only [pole_placement_second_order_gains]
    exact ⟨le_trans (by norm_num) (le_max_left _ _), le_max_left _ _⟩
  · intro K tau rise_time
    simp only [pole_placement_default_gains]
    exact ⟨le_trans (by norm_num) (le_max_left _ _), le_max_left _ _⟩
  · intro K tau kg hK htau
    simp only [calculate_ziegler_nichols_gains]
    constructor
    · exact le_of_lt (div_pos (by norm_num) (mul_pos hK htau))
    · exact mul_nonneg (by norm_num) htau.le
  · intro K tau kg f hK htau hf
    simp only [calculate_lambda_tuning_gains]
    constructor
    · exact le_of_lt (div_pos htau (mul_pos hK (mul_pos hf htau)))
    · trivial

/-- C4 witness: the amended guarantees at concrete inputs `K = 2`,
`tau = 3`, lambda factor 1, and unit pole-placement targets. -/
theorem C4_nonneg_gains_witness :
    ((0 : ℚ) < 2 ∧ (0 : ℚ) < 3 ∧ (0 : ℚ) < 1) ∧
    (0 ≤ (calculate_ziegler_nichols_gains 2 3 0).kP ∧
      0 ≤ (calculate_ziegler_nichols_gains 2 3 0).kD) ∧
    (0 ≤ (calculate_lambda_tuning_gains 2 3 0 1).kP ∧
      (calculate_lambda_tuning_gains 2 3 0 1).kD = 0) ∧
    (0 ≤ (pole_placement_first_order_gains 1 1 1 1).1 ∧
      0 ≤ (pole_placement_first_order_gains 1 1 1 1).2) :=
  ⟨⟨by norm_num, by norm_num, by norm_num⟩,
   C4_nonneg_gains.2.2.2.1 2 3 0 (by norm_num) (by norm_num),
   C4_nonneg_gains.2.2.2.2 2 3 0 1 (by norm_num) (by norm_num)
     (by norm_num),
   C4_nonneg_gains.1 1 1 1 1⟩

/-- C5 counterexample: the `kg` interval for `kg = -1` is
`(-0.9, -1.1)` — its lower bound exceeds its upper bound, so it cannot be
of the form `value ± z·sqrt(diag(cov))` for any nonnegative margin. -/
theorem C5_kg_interval_counterexample :
    kg_confidence_interval (-1) = (-(9/10), -(11/10)) ∧
    ¬ ∃ m : ℚ, 0 ≤ m ∧ kg_confidence_interval (-1) = (-1 - m, -1 + m) := by
  constructor
  · simp only [kg_confidence_interval, Prod.mk.injEq]
    norm_num
  · rintro ⟨m, hm, h⟩
    simp only [kg_confidence_interval, Prod.mk.injEq] at h
    obtain ⟨h1, h2⟩ := h
    norm_num at h1 h2
    linarith

/-- C5 (amended): the intervals produced by
`calculate_confidence_intervals` are `value ± z · stderr` with the standard
errors drawn from the covariance diagonal, for the non-`kg` parameters; the
`kg` interval, when present, is instead the fixed heuristic
`(0.9·kg, 1.1·kg)`, i.e. `kg ∓ kg/10`, not derived from the covariance
matrix. -/
theorem C5_confidence_intervals :
    (∀ ps es z, calculate_confidence_intervals ps es z =
      (ps.zip es).map (fun pe => (pe.1 - z * pe.2, pe.1 + z * pe.2))) ∧
    (∀ kg : ℚ, kg_confidence_interval kg =
      (kg - kg * (1/10), kg + kg * (1/10))) := by
  constructor
  · intro ps
    induction ps with
    | nil => intro es z; cases es <;> rfl
    | cons p ps ih =>
      intro es z
      cases es with
      | nil => rfl
      | cons e es =>
        simp only [calculate_confidence_intervals, List.zip_cons_cons,
          List.map_cons, ih]
  · intro kg
    simp only [kg_confidence_interval, Prod.mk.injEq]
    constructor <;> ring_nf

/-- C6: when at least one parameter clears the 1e-6 magnitude floor (so the
average relative CI width exists), the overall confidence equals
0.5·(clamped linear R² score) + 0.3·(clamped 1 − mean relative CI width) +
0.2·(1/2)^(number of violated physics bounds); and the overall confidence
always lies in [0, 1]. -/
theorem C6_overall_confidence :
    (∀ r ps cis, ci_width_list ps cis ≠ [] →
      assess_confidence r ps cis =
        0.5 * clamp01 ((r - 0.7) / 0.25) +
        0.3 * clamp01 (1 - list_mean (ci_width_list ps cis)) +
        0.2 * (1/2 : ℚ) ^ spec_violation_count ps) ∧
    (∀ r ps cis, 0 ≤ assess_confidence r ps cis ∧
      assess_confidence r ps cis ≤ 1) := by
  constructor
  · intro r ps cis h
    have hph : (if tau_violated ps then (0.5 : ℚ) else 1) *
        (if omega_n_violated ps then (0.5 : ℚ) else 1) *
        (if zeta_violated ps then (0.5 : ℚ) else 1) =
        (1/2 : ℚ) ^ spec_violation_count ps := by
      unfold spec_violation_count
      split_ifs <;> norm_num
    unfold assess_confidence
    rw [if_neg h, hph]
  · intro r ps cis
    have h1 := clamp01_nonneg ((r - 0.7) / 0.25)
    have h2 := clamp01_le_one ((r - 0.7) / 0.25)
    have h3 : 0 ≤ (if ci_width_list ps cis = [] then (0.5 : ℚ)
        else clamp01 (1 - list_mean (ci_width_list ps cis))) := by
      split_ifs
      · norm_num
      · exact clamp01_nonneg _
    have h4 : (if ci_width_list ps cis = [] then (0.5 : ℚ)
        else clamp01 (1 - list_mean (ci_width_list ps cis))) ≤ 1 := by
      split_ifs
      · norm_num
      · exact clamp01_le_one _
    have h5 : 0 ≤ (if tau_violated ps then (0.5 : ℚ) else 1) *
        (if omega_n_violated ps then (0.5 : ℚ) else 1) *
        (if zeta_violated ps then (0.5 : ℚ) else 1) := by
      split_ifs <;> norm_num
    have h6 : (if tau_violated ps then (0.5 : ℚ) else 1) *
        (if omega_n_violated ps then (0.5 : ℚ) else 1) *
        (if zeta_violated ps then (0.5 : ℚ) else 1) ≤ 1 := by
      split_ifs <;> norm_num
    unfold assess_confidence
    constructor <;> nlinarith

/-- C6 witness: the formula at a concrete fit with one parameter `K = 1`
and interval `(0.9, 1.1)`. -/
theorem C6_overall_confidence_witness :
    ci_width_list [(ParamName.K, 1)] [((9/10 : ℚ), (11/10 : ℚ))] ≠ [] ∧
    assess_confidence (9/10) [(ParamName.K, 1)]
        [((9/10 : ℚ), (11/10 : ℚ))] =
      0.5 * clamp01 (((9/10 : ℚ) - 0.7) / 0.25) +
      0.3 * clamp01 (1 - list_mean (ci_width_list [(ParamName.K, 1)]
        [((9/10 : ℚ), (11/10 : ℚ))])) +
      0.2 * (1/2 : ℚ) ^ spec_violation_count [(ParamName.K, 1)] :=
  ⟨by norm_num [ci_width_list, List.filterMap],
   C6_overall_confidence.1 _ _ _ (by norm_num [ci_width_list, List.filterMap])⟩

/-- C7: lambda tuning returns `kP = tau / (K · λ)` with `λ = factor · tau`,
`kD = 0`, and predicts zero percent overshoot, for every input model. -/
theorem C7_lambda_tuning (K tau kg factor : ℚ) :
    (calculate_lambda_tuning_gains K tau kg factor).kP =
      tau / (K * (factor * tau)) ∧
    (calculate_lambda_tuning_gains K tau kg factor).kD = 0 ∧
    (calculate_lambda_tuning_gains K tau kg factor).overshoot_percent
      = 0 := by
  refine ⟨rfl, rfl, ?_⟩
  norm_num [calculate_lambda_tuning_gains]

/-- C8 counterexample: for a 5-sample post-step power series of constant
1.0, the gravity identifiers return `kg = 0` (the `len(power) > 20` guard
fails), while the mean over the final 20% of the window is 1 — so `kg` is
not always the steady-state mean. -/
theorem C8_kg_counterexample :
    identify_first_order_gravity_kg (List.replicate 5 1) = 0 ∧
    spec_steady_state_kg (List.replicate 5 1) = 1 ∧
    identify_first_order_gravity_kg (List.replicate 5 1) ≠
      spec_steady_state_kg (List.replicate 5 1) := by
  refine ⟨rfl, ?_, ?_⟩
  · norm_num [spec_steady_state_kg, list_mean, List.replicate, List.drop]
  · intro h
    rw [show identify_first_order_gravity_kg (List.replicate 5 1) = 0
      from rfl] at h
    norm_num [spec_steady_state_kg, list_mean, List.replicate,
      List.drop] at h

/-- C8 (amended): the gravity-variant identifiers estimate `kg` as the mean
of the applied power over the final 20% of the post-step window only when
that window holds more than 20 samples; with 20 samples or fewer they
return `kg = 0.0` instead. -/
theorem C8_kg_steady_state (power : List ℚ) :
    (20 < power.length →
      identify_first_order_gravity_kg power = spec_steady_state_kg power ∧
      identify_second_order_gravity_kg power = spec_steady_state_kg power) ∧
    (power.length ≤ 20 →
      identify_first_order_gravity_kg power = 0 ∧
      identify_second_order_gravity_kg power = 0) := by
  constructor
  · intro h
    constructor <;>
      simp [identify_first_order_gravity_kg,
        identify_second_order_gravity_kg, spec_steady_state_kg, h]
  · intro h
    have h' : ¬ 20 < power.length := not_lt.mpr h
    constructor <;>
      simp [identify_first_order_gravity_kg,
        identify_second_order_gravity_kg, h']

/-- C8 witness: a 25-sample constant power series exceeds the guard, and
both identifiers agree with the steady-state mean there. -/
theorem C8_kg_steady_state_witness :
    20 < (List.replicate 25 (1 : ℚ)).length ∧
    identify_first_order_gravity_kg (List.replicate 25 (1 : ℚ)) =
      spec_steady_state_kg (List.replicate 25 (1 : ℚ)) ∧
    identify_second_order_gravity_kg (List.replicate 25 (1 : ℚ)) =
      spec_steady_state_kg (List.replicate 25 (1 : ℚ)) :=
  ⟨by decide,
   ((C8_kg_steady_state _).1 (by decide)).1,
   ((C8_kg_steady_state _).1 (by decide)).2⟩

/-- C9 counterexample: the friction model type is produced by
identification with the plain string `"friction"`, which is a key of the
validator's simulator dictionary — dispatch succeeds for it, so simulation
is attempted rather than failing with `Unknown model type`, and the
validation outcome is whatever the remaining pipeline computes (here a
passing continuation), not an automatic failure. -/
theorem C9_friction_dispatch_counterexample :
    ModelType.friction.value = "friction" ∧
    simulator_for (ModelType.friction.value) =
      some SimulatorTag.friction_model ∧
    validate_model_sim (ModelType.friction.value)
        (fun _ => { validation_passed := true,
                    fallback_suggestion := none }) =
      { validation_passed := true, fallback_suggestion := none } := by
  refine ⟨rfl, by decide, rfl⟩

/-- C9 (amended): for every identification model type except `friction`,
the hyphenated `.value` string misses every key of the validator's
underscore-named simulator dictionary, so `simulate_model` raises
`Unknown model type` and `validate_model` returns a report with
`validation_passed = False` whatever the rest of the validation would have
computed; `friction` (whose name has no hyphen) is the one exception. -/
theorem C9_hyphen_dispatch (mt : ModelType)
    (h : mt ≠ ModelType.friction) :
    simulator_for mt.value = none ∧
    ∀ on_ok, (validate_model_sim mt.value on_ok).validation_passed
      = false := by
  cases mt
  case friction => exact absurd rfl h
  all_goals exact ⟨rfl, fun on_ok => rfl⟩

/-- C9 witness: the first-order model record (string `"first-order"`)
misses the simulator dictionary and is reported failed. -/
theorem C9_hyphen_dispatch_witness :
    ModelType.first_order ≠ ModelType.friction ∧
    simulator_for (ModelType.first_order.value) = none ∧
    (validate_model_sim (ModelType.first_order.value)
      (fun _ => { validation_passed := true,
                  fallback_suggestion := none })).validation_passed
      = false :=
  ⟨by decide,
   (C9_hyphen_dispatch ModelType.first_order (by decide)).1,
   (C9_hyphen_dispatch ModelType.first_order (by decide)).2 _⟩

/-- C10: whenever the post-step position series ends below its first
sample, the first-order `K` guess `final_value - pos_initial` is negative,
the `K` bounds `[K_guess*0.5, K_guess*2.0]` are inverted, and
`identify_first_order` raises a fitting error without ever invoking the
solver, for every possible solver behaviour. -/
theorem C10_downward_step_fit_error (pos : List ℚ)
    (fit : ℚ → ℚ → Except String (ℚ × ℚ))
    (h : pos.getLastD 0 < pos.headD 0) :
    identify_first_order pos fit =
      Except.error ("First-order fitting failed: invalid bounds") := by
  have hk : pos.getLastD 0 - pos.headD 0 < 0 := sub_neg.mpr h
  have hb : ¬ ((pos.getLastD 0 - pos.headD 0) * 0.5 <
      (pos.getLastD 0 - pos.headD 0) * 2.0) := by
    rw [not_lt]
    nlinarith
  have hbv : bounds_valid (first_order_bounds
      (pos.getLastD 0 - pos.headD 0)) = false := by
    unfold bounds_valid first_order_bounds
    dsimp only
    rw [decide_eq_false hb]
    rfl
  simp only [identify_first_order]
  rw [hbv]
  simp

/-- C10 witness: the two-sample downward series `[10, 5]` triggers the
fitting error for a solver that would otherwise succeed. -/
theorem C10_downward_step_fit_error_witness :
    ([(10 : ℚ), 5].getLastD 0 < [(10 : ℚ), 5].headD 0) ∧
    identify_first_order [(10 : ℚ), 5] (fun a b => Except.ok (a, b)) =
      Except.error ("First-order fitting failed: invalid bounds") :=
  ⟨by norm_num, C10_downward_step_fit_error _ _ (by norm_num)⟩

end FtcControl
